import Mathlib

/-!
Verification of the trajectory-buffer and training-loop core of the
`pytorch-cpp-rl` repository (files `src/storage.cpp` and
`example/gym_client.cpp`), as a shallow embedding in Lean 4.

Tensors are modelled as a shape, a dtype tag and a flat list of exact
rationals (the code computes with 32-bit floats; all numeric recursions are
embedded over ℚ, exactly).  The three mutating methods of `RolloutStorage`
(`insert`, `compute_returns`, `after_update`) have empty bodies in the
source, so their embeddings are the identity on the storage state; the
contract the repository's own doctest cases assert for them is embedded
separately, from the specification's words.
-/

/-- Element type tag of a torch tensor: `torch::kFloat` or `torch::kLong`. -/
inductive TDtype where
  | Float
  | Long
deriving DecidableEq, Repr

/-- A torch tensor: shape, element dtype, and flattened contents (exact ℚ). -/
structure Tensor where
  shape : List ℕ
  dtype : TDtype
  data : List ℚ
deriving DecidableEq, Repr

/-- Number of elements of a tensor of the given shape. -/
def numel (shape : List ℕ) : ℕ := shape.foldl (fun a b => a * b) 1

/-- `torch::zeros(shape)`: float tensor filled with 0. -/
def torch_zeros (shape : List ℕ) : Tensor :=
  ⟨shape, TDtype.Float, List.replicate (numel shape) 0⟩

/-- `torch::ones(shape)`: float tensor filled with 1. -/
def torch_ones (shape : List ℕ) : Tensor :=
  ⟨shape, TDtype.Float, List.replicate (numel shape) 1⟩

/-- `tensor.to(torch::kLong)`: dtype conversion (contents preserved; only
zero-valued tensors are converted in the code). -/
def Tensor.toLong (t : Tensor) : Tensor := ⟨t.shape, TDtype.Long, t.data⟩

/-- `cpprl::ActionSpace`: a type string (`"Discrete"`, `"Box"`, ...) and a
shape vector. -/
structure ActionSpace where
  type : String
  shape : List ℕ
deriving DecidableEq, Repr

/-- State of `cpprl::RolloutStorage`: the eight tensor members plus the
`num_steps` and `step` counters. -/
structure RolloutStorage where
  observations : Tensor
  hidden_states : Tensor
  rewards : Tensor
  value_predictions : Tensor
  returns : Tensor
  action_log_probs : Tensor
  actions : Tensor
  masks : Tensor
  num_steps : ℕ
  step : ℕ
deriving DecidableEq, Repr

/-- The `RolloutStorage` constructor (`storage.cpp`): observations and
hidden states get a `num_steps + 1` leading extent, as do
`value_predictions`, `returns` and `masks`; `rewards`, `action_log_probs`
and `actions` get `num_steps`; `masks` is ones-filled, everything else
zero-filled; `actions` is converted to `kLong` exactly when the action
space type is `"Discrete"` (with one action column, else `shape[0]`
columns). -/
def mkRolloutStorage (num_steps num_processes : ℕ) (obs_shape : List ℕ)
    (action_space : ActionSpace) (hidden_state_size : ℕ) : RolloutStorage :=
  let observations_shape : List ℕ := (num_steps + 1) :: num_processes :: obs_shape
  let num_actions : ℕ :=
    if action_space.type = "Discrete" then 1 else action_space.shape.headD 0
  let actions0 : Tensor := torch_zeros [num_steps, num_processes, num_actions]
  { observations := torch_zeros observations_shape
    hidden_states := torch_zeros [num_steps + 1, num_processes, hidden_state_size]
    rewards := torch_zeros [num_steps, num_processes, 1]
    value_predictions := torch_zeros [num_steps + 1, num_processes, 1]
    returns := torch_zeros [num_steps + 1, num_processes, 1]
    action_log_probs := torch_zeros [num_steps, num_processes, 1]
    actions := if action_space.type = "Discrete" then actions0.toLong else actions0
    masks := torch_ones [num_steps + 1, num_processes, 1]
    num_steps := num_steps
    step := 0 }

/-- `RolloutStorage::after_update` as written in the source: the body is
empty, so the state is returned unchanged. -/
def RolloutStorage.after_update (s : RolloutStorage) : RolloutStorage := s

/-- `RolloutStorage::compute_returns` as written in the source: all four
parameters are discarded and the body is empty, so the state is returned
unchanged. -/
def RolloutStorage.compute_returns (s : RolloutStorage) (_next_value : Tensor)
    (_use_gae : Bool) (_gamma _tau : ℚ) : RolloutStorage := s

/-- `RolloutStorage::insert` as written in the source: all seven parameters
are discarded and the body is empty, so the state is returned unchanged. -/
def RolloutStorage.insert (s : RolloutStorage)
    (_observation _hidden_state _action _action_log_prob
     _value_prediction _reward _mask : Tensor) : RolloutStorage := s

/-- Modelled from the spec: the elementwise step of the no-GAE recursion,
`returns[t] = rewards[t] + gamma * masks[t+1] * returns[t+1]`, applied
per environment.  (The body of `compute_returns` is empty in the source;
this is the contract its doctest asserts.) -/
def specRetStep (gamma : ℚ) (r m nxt : List ℚ) : List ℚ :=
  (r.zip (m.zip nxt)).map (fun p => p.1 + gamma * p.2.1 * p.2.2)

/-- Modelled from the spec: `computeReturns` without GAE.  The input rows
are the pairs `(rewards[t], masks[t+1])` for `t = 0 .. T-1`; the result
lists `returns[t]` for `t = 0 .. T`, with `returns[T]` the bootstrap
value. -/
def specReturnsNoGae (gamma : ℚ) (bootstrap : List ℚ) :
    List (List ℚ × List ℚ) → List (List ℚ)
  | [] => [bootstrap]
  | (r, m) :: rest =>
    let tail := specReturnsNoGae gamma bootstrap rest
    specRetStep gamma r m (tail.headD bootstrap) :: tail

/-- Modelled from the spec: `computeReturns` with GAE.  Rows are triples
`(rewards[t], masks[t+1], valuePredictions[t])`; the second component of
the result is the rolling `gae` vector at the current step (0 at `t = T`).
`delta[t] = rewards[t] + gamma * masks[t+1] * vNext - valuePredictions[t]`
with `vNext` the next row's value prediction, or the bootstrap for the last
row; `gae = delta[t] + gamma * lambda * masks[t+1] * gae`;
`returns[t] = gae + valuePredictions[t]`. -/
def specReturnsGaeAux (gamma lam : ℚ) (bootstrap : List ℚ) :
    List (List ℚ × List ℚ × List ℚ) → (List (List ℚ) × List ℚ)
  | [] => ([bootstrap], bootstrap.map (fun _ => 0))
  | (r, m, v) :: rest =>
    let p := specReturnsGaeAux gamma lam bootstrap rest
    let vNext : List ℚ :=
      match rest with
      | [] => bootstrap
      | (_, _, v2) :: _ => v2
    let delta := (r.zip (m.zip (vNext.zip v))).map
      (fun q => q.1 + gamma * q.2.1 * q.2.2.1 - q.2.2.2)
    let g := (delta.zip (m.zip p.2)).map
      (fun q => q.1 + gamma * lam * q.2.1 * q.2.2)
    let ret := (g.zip v).map (fun q => q.1 + q.2)
    (ret :: p.1, g)

/-- Modelled from the spec: the returns computed by the GAE branch of
`computeReturns`, for `t = 0 .. T`. -/
def specReturnsGae (gamma lam : ℚ) (bootstrap : List ℚ)
    (rows : List (List ℚ × List ℚ × List ℚ)) : List (List ℚ) :=
  (specReturnsGaeAux gamma lam bootstrap rows).1

/-- Claim C9: a freshly constructed buffer has `masks` filled entirely with
1, every other array filled entirely with 0, and the `actions` array of
integral element type exactly when the action space is Discrete (floating
point otherwise). -/
theorem fresh_buffer_init (T N H : ℕ) (obs_shape : List ℕ) (space : ActionSpace)
    (hT : 0 < T) (hN : 0 < N) (hH : 0 < H) :
    (mkRolloutStorage T N obs_shape space H).masks.data
        = List.replicate (numel (mkRolloutStorage T N obs_shape space H).masks.shape) 1
    ∧ (mkRolloutStorage T N obs_shape space H).observations.data
        = List.replicate (numel (mkRolloutStorage T N obs_shape space H).observations.shape) 0
    ∧ (mkRolloutStorage T N obs_shape space H).hidden_states.data
        = List.replicate (numel (mkRolloutStorage T N obs_shape space H).hidden_states.shape) 0
    ∧ (mkRolloutStorage T N obs_shape space H).rewards.data
        = List.replicate (numel (mkRolloutStorage T N obs_shape space H).rewards.shape) 0
    ∧ (mkRolloutStorage T N obs_shape space H).value_predictions.data
        = List.replicate (numel (mkRolloutStorage T N obs_shape space H).value_predictions.shape) 0
    ∧ (mkRolloutStorage T N obs_shape space H).returns.data
        = List.replicate (numel (mkRolloutStorage T N obs_shape space H).returns.shape) 0
    ∧ (mkRolloutStorage T N obs_shape space H).action_log_probs.data
        = List.replicate (numel (mkRolloutStorage T N obs_shape space H).action_log_probs.shape) 0
    ∧ (mkRolloutStorage T N obs_shape space H).actions.data
        = List.replicate (numel (mkRolloutStorage T N obs_shape space H).actions.shape) 0
    ∧ (mkRolloutStorage T N obs_shape space H).actions.dtype
        = (if space.type = "Discrete" then TDtype.Long else TDtype.Float) := by
  by_cases h : space.type = "Discrete" <;>
    simp [mkRolloutStorage, torch_zeros, torch_ones, Tensor.toLong, h]

/-- Witness for claim C9 at `T = 3, N = 5, H = 10`, observation shape
`[5, 2]`, Discrete action space of shape `[3]` (the doctest instance). -/
theorem fresh_buffer_init_witness :
    ((0 < 3 ∧ 0 < 5) ∧ 0 < 10)
    ∧ ((mkRolloutStorage 3 5 [5, 2] ⟨"Discrete", [3]⟩ 10).masks.data
        = List.replicate (numel (mkRolloutStorage 3 5 [5, 2] ⟨"Discrete", [3]⟩ 10).masks.shape) 1
    ∧ (mkRolloutStorage 3 5 [5, 2] ⟨"Discrete", [3]⟩ 10).observations.data
        = List.replicate (numel (mkRolloutStorage 3 5 [5, 2] ⟨"Discrete", [3]⟩ 10).observations.shape) 0
    ∧ (mkRolloutStorage 3 5 [5, 2] ⟨"Discrete", [3]⟩ 10).hidden_states.data
        = List.replicate (numel (mkRolloutStorage 3 5 [5, 2] ⟨"Discrete", [3]⟩ 10).hidden_states.shape) 0
    ∧ (mkRolloutStorage 3 5 [5, 2] ⟨"Discrete", [3]⟩ 10).rewards.data
        = List.replicate (numel (mkRolloutStorage 3 5 [5, 2] ⟨"Discrete", [3]⟩ 10).rewards.shape) 0
    ∧ (mkRolloutStorage 3 5 [5, 2] ⟨"Discrete", [3]⟩ 10).value_predictions.data
        = List.replicate (numel (mkRolloutStorage 3 5 [5, 2] ⟨"Discrete", [3]⟩ 10).value_predictions.shape) 0
    ∧ (mkRolloutStorage 3 5 [5, 2] ⟨"Discrete", [3]⟩ 10).returns.data
        = List.replicate (numel (mkRolloutStorage 3 5 [5, 2] ⟨"Discrete", [3]⟩ 10).returns.shape) 0
    ∧ (mkRolloutStorage 3 5 [5, 2] ⟨"Discrete", [3]⟩ 10).action_log_probs.data
        = List.replicate (numel (mkRolloutStorage 3 5 [5, 2] ⟨"Discrete", [3]⟩ 10).action_log_probs.shape) 0
    ∧ (mkRolloutStorage 3 5 [5, 2] ⟨"Discrete", [3]⟩ 10).actions.data
        = List.replicate (numel (mkRolloutStorage 3 5 [5, 2] ⟨"Discrete", [3]⟩ 10).actions.shape) 0
    ∧ (mkRolloutStorage 3 5 [5, 2] ⟨"Discrete", [3]⟩ 10).actions.dtype
        = (if ActionSpace.type ⟨"Discrete", [3]⟩ = "Discrete" then TDtype.Long else TDtype.Float)) :=
  ⟨⟨⟨by decide, by decide⟩, by decide⟩,
    fresh_buffer_init 3 5 10 [5, 2] ⟨"Discrete", [3]⟩ (by decide) (by decide) (by decide)⟩

/-- Claim C6, counterexample: with `T = 3, N = 5` (the doctest instance) the
`value_predictions` array has shape `[4, 5, 1]`, i.e. leading extent
`T + 1`, not the `[T, N, 1] = [3, 5, 1]` the claim states. -/
theorem value_predictions_shape_counterexample :
    (mkRolloutStorage 3 5 [5, 2] ⟨"Discrete", [3]⟩ 10).value_predictions.shape = [4, 5, 1]
    ∧ (mkRolloutStorage 3 5 [5, 2] ⟨"Discrete", [3]⟩ 10).value_predictions.shape ≠ [3, 5, 1] := by
  constructor <;> decide

/-- Claim C6, amended: for every constructed buffer the `value_predictions`
array has shape `[T + 1, N, 1]` — the same leading extent as `returns` and
`masks`, one more than `rewards` and `action_log_probs`. -/
theorem value_predictions_shape_amended (T N : ℕ) (obs_shape : List ℕ)
    (space : ActionSpace) (H : ℕ) :
    (mkRolloutStorage T N obs_shape space H).value_predictions.shape = [T + 1, N, 1] := by
  simp [mkRolloutStorage, torch_zeros]

/-- One call against a `RolloutStorage`: an insert, a return computation, or
a rotation. -/
inductive StorageOp where
  | insertOp (observation hidden_state action action_log_prob
      value_prediction reward mask : Tensor)
  | computeReturnsOp (next_value : Tensor) (use_gae : Bool) (gamma tau : ℚ)
  | afterUpdateOp

/-- Apply one `StorageOp` to a storage state via the corresponding source
method. -/
def applyStorageOp (s : RolloutStorage) : StorageOp → RolloutStorage
  | StorageOp.insertOp o h a lp v r m => s.insert o h a lp v r m
  | StorageOp.computeReturnsOp nv g γ τ => s.compute_returns nv g γ τ
  | StorageOp.afterUpdateOp => s.after_update

/-- Run a finite call sequence against a storage state. -/
def runStorageOps (s : RolloutStorage) (ops : List StorageOp) : RolloutStorage :=
  ops.foldl applyStorageOp s

theorem applyStorageOp_eq (s : RolloutStorage) (op : StorageOp) :
    applyStorageOp s op = s := by
  cases op <;> rfl

theorem runStorageOps_fixed (ops : List StorageOp) (s : RolloutStorage) :
    runStorageOps s ops = s := by
  induction ops generalizing s with
  | nil => rfl
  | cons op rest ih =>
    show List.foldl applyStorageOp (applyStorageOp s op) rest = s
    rw [applyStorageOp_eq]
    exact ih s

/-- Claim C10: every finite sequence of `insert`, `compute_returns` and
`after_update` calls leaves a freshly constructed storage exactly at its
constructor-initialized state (masks all ones, all other arrays all zeros,
`step = 0`): the three methods have empty bodies. -/
theorem storage_ops_preserve_init (T N H : ℕ) (obs_shape : List ℕ)
    (space : ActionSpace) (ops : List StorageOp) :
    runStorageOps (mkRolloutStorage T N obs_shape space H) ops
        = mkRolloutStorage T N obs_shape space H
    ∧ (mkRolloutStorage T N obs_shape space H).masks.data
        = List.replicate (numel (mkRolloutStorage T N obs_shape space H).masks.shape) 1
    ∧ (mkRolloutStorage T N obs_shape space H).observations.data
        = List.replicate (numel (mkRolloutStorage T N obs_shape space H).observations.shape) 0
    ∧ (mkRolloutStorage T N obs_shape space H).hidden_states.data
        = List.replicate (numel (mkRolloutStorage T N obs_shape space H).hidden_states.shape) 0
    ∧ (mkRolloutStorage T N obs_shape space H).rewards.data
        = List.replicate (numel (mkRolloutStorage T N obs_shape space H).rewards.shape) 0
    ∧ (mkRolloutStorage T N obs_shape space H).value_predictions.data
        = List.replicate (numel (mkRolloutStorage T N obs_shape space H).value_predictions.shape) 0
    ∧ (mkRolloutStorage T N obs_shape space H).returns.data
        = List.replicate (numel (mkRolloutStorage T N obs_shape space H).returns.shape) 0
    ∧ (mkRolloutStorage T N obs_shape space H).action_log_probs.data
        = List.replicate (numel (mkRolloutStorage T N obs_shape space H).action_log_probs.shape) 0
    ∧ (mkRolloutStorage T N obs_shape space H).actions.data
        = List.replicate (numel (mkRolloutStorage T N obs_shape space H).actions.shape) 0
    ∧ (mkRolloutStorage T N obs_shape space H).step = 0 := by
  refine ⟨runStorageOps_fixed ops _, ?_⟩
  by_cases h : space.type = "Discrete" <;>
    simp [mkRolloutStorage, torch_zeros, torch_ones, Tensor.toLong, h]

/-- The doctest storage for the insert case: `RolloutStorage(3, 4, {5, 2},
Discrete{3}, 10)`. -/
def c3_storage : RolloutStorage := mkRolloutStorage 3 4 [5, 2] ⟨"Discrete", [3]⟩ 10

/-- The doctest insert call, one concrete draw: every `rand + 1` entry taken
as `3/2` (the draws lie in `(1, 2)`), the `randint(1, 3)` action entries
taken as `2`, and the mask a ones tensor. -/
def c3_inserted : RolloutStorage :=
  c3_storage.insert
    ⟨[3, 5, 2], TDtype.Float, List.replicate 30 (3 / 2)⟩
    ⟨[3, 10], TDtype.Float, List.replicate 30 (3 / 2)⟩
    ⟨[3, 1], TDtype.Long, List.replicate 3 2⟩
    ⟨[3, 1], TDtype.Float, List.replicate 3 (3 / 2)⟩
    ⟨[3, 1], TDtype.Float, List.replicate 3 (3 / 2)⟩
    ⟨[3, 1], TDtype.Float, List.replicate 3 (3 / 2)⟩
    ⟨[3, 1], TDtype.Float, List.replicate 3 1⟩

/-- Claim C3 (code bug): `insert` has an empty body, so the doctest insert
call leaves the storage identical to the fresh one — in particular the
rewards slot that should now hold the inserted `3/2` still reads 0, and the
step cursor did not advance — contradicting both the claim and the in-file
doctest `insert() inserts values`. -/
theorem insert_stub_contradicts_test :
    c3_inserted = c3_storage
    ∧ c3_inserted.rewards.data.getD 0 0 = 0
    ∧ c3_inserted.step = 0
    ∧ ((3 : ℚ) / 2 ≠ 0) :=
  ⟨rfl, by decide, rfl, by norm_num⟩

/-- A buffer state with `T = 1, N = 1`, scalar observations, whose slot-`T`
observation is 5 while slot 0 holds 0, and whose cursor stands at 1 (one
step collected). -/
def c4_storage : RolloutStorage :=
  { mkRolloutStorage 1 1 [] ⟨"Discrete", [1]⟩ 1 with
      observations := ⟨[2, 1], TDtype.Float, [0, 5]⟩
      step := 1 }

/-- Claim C4 (code bug): `after_update` has an empty body, so on a buffer
whose `observations[T]` holds 5 it neither copies that value into
`observations[0]` (which stays 0) nor resets the cursor (which stays 1),
contradicting the rotation the claim describes. -/
theorem after_update_stub_contradicts_spec :
    c4_storage.observations.data.getD 1 0 = 5
    ∧ c4_storage.after_update = c4_storage
    ∧ (c4_storage.after_update).observations.data.getD 0 0 = 0
    ∧ (c4_storage.after_update).step = 1 :=
  ⟨by decide, rfl, by decide, rfl⟩

/-- The doctest storage for the return-computation cases:
`RolloutStorage(3, 2, {4}, Discrete{3}, 5)`. -/
def c1_storage : RolloutStorage := mkRolloutStorage 3 2 [4] ⟨"Discrete", [3]⟩ 5

/-- The three doctest inserts: value predictions `[0,1],[1,2],[2,3]`,
rewards `[0,1],[1,2],[2,3]`, masks `[1,1],[1,0],[1,1]`, with zero
observations, hidden states, actions and log-probs. -/
def c1_after_inserts : RolloutStorage :=
  (((c1_storage.insert
      (torch_zeros [2, 4]) (torch_zeros [2, 5]) (torch_zeros [2, 1]) (torch_zeros [2, 1])
      ⟨[2, 1], TDtype.Float, [0, 1]⟩ ⟨[2, 1], TDtype.Float, [0, 1]⟩
      ⟨[2, 1], TDtype.Float, [1, 1]⟩).insert
      (torch_zeros [2, 4]) (torch_zeros [2, 5]) (torch_zeros [2, 1]) (torch_zeros [2, 1])
      ⟨[2, 1], TDtype.Float, [1, 2]⟩ ⟨[2, 1], TDtype.Float, [1, 2]⟩
      ⟨[2, 1], TDtype.Float, [1, 0]⟩).insert
      (torch_zeros [2, 4]) (torch_zeros [2, 5]) (torch_zeros [2, 1]) (torch_zeros [2, 1])
      ⟨[2, 1], TDtype.Float, [2, 3]⟩ ⟨[2, 1], TDtype.Float, [2, 3]⟩
      ⟨[2, 1], TDtype.Float, [1, 1]⟩)

/-- The doctest `compute_returns` call without GAE: bootstrap `[0, 1]`,
`gamma = tau = 0.6`. -/
def c1_result : RolloutStorage :=
  c1_after_inserts.compute_returns ⟨[2, 1], TDtype.Float, [0, 1]⟩ false (3 / 5) (3 / 5)

/-- The same call with GAE enabled. -/
def c2_result : RolloutStorage :=
  c1_after_inserts.compute_returns ⟨[2, 1], TDtype.Float, [0, 1]⟩ true (3 / 5) (3 / 5)

/-- Claim C1 (code bug): `compute_returns` has an empty body, so after the
doctest inserts and the no-GAE call the `returns` tensor is still all
zeros, while the claimed recursion (modelled from the spec) on the same
inputs yields the values the in-file doctest asserts:
`[[1.32, 2.2], [2.2, 2], [2, 3.6], [0, 1]]`. -/
theorem compute_returns_no_gae_stub_contradicts_test :
    c1_result.returns.data = List.replicate 8 0
    ∧ specReturnsNoGae (3 / 5) [0, 1]
        [([0, 1], [1, 1]), ([1, 2], [1, 0]), ([2, 3], [1, 1])]
      = [[33 / 25, 11 / 5], [11 / 5, 2], [2, 18 / 5], [0, 1]]
    ∧ ((33 : ℚ) / 25 ≠ 0) :=
  ⟨rfl, by norm_num [specReturnsNoGae, specRetStep], by norm_num⟩

/-- Claim C2 (code bug): `compute_returns` has an empty body, so after the
doctest inserts and the GAE call the `returns` tensor is still all zeros,
while the claimed GAE recursion (modelled from the spec) on the same inputs
yields the values the in-file doctest asserts:
`[[1.032, 2.2], [2.2, 2], [2, 3.6], [0, 1]]`. -/
theorem compute_returns_gae_stub_contradicts_test :
    c2_result.returns.data = List.replicate 8 0
    ∧ specReturnsGae (3 / 5) (3 / 5) [0, 1]
        [([0, 1], [1, 1], [0, 1]), ([1, 2], [1, 0], [1, 2]), ([2, 3], [1, 1], [2, 3])]
      = [[129 / 125, 11 / 5], [11 / 5, 2], [2, 18 / 5], [0, 1]]
    ∧ ((129 : ℚ) / 125 ≠ 0) :=
  ⟨rfl, by norm_num [specReturnsGae, specReturnsGaeAux], by norm_num⟩

/-- `gym_client.cpp` hyperparameter `discount_factor = 0.99`. -/
def discount_factor : ℚ := 99 / 100

/-- `gym_client.cpp` hyperparameter `reward_clip_value = 100`. -/
def reward_clip_value : ℚ := 100

/-- `gym_client.cpp` hyperparameter `reward_average_window_size = 10`. -/
def reward_average_window_size : ℕ := 10

/-- `torch::clamp(x, lo, hi)`, elementwise on one scalar. -/
def clampQ (x lo hi : ℚ) : ℚ := min (max x lo) hi

/-- Orchestrator-owned mutable state of the collection loop in `main`:
the discounted running returns fed to the reward normalizer, the
per-environment cumulative raw rewards, the episode-reward window, and the
completed-episode counter. -/
structure LoopState where
  returns : List ℚ
  running_rewards : List ℚ
  reward_history : List ℚ
  episode_count : ℕ
deriving DecidableEq, Repr

/-- Accumulator of the per-environment done-handling loop in `main`. -/
structure DoneLoopAcc where
  ret : List ℚ
  rr : List ℚ
  hist : List ℚ
  ec : ℕ
deriving DecidableEq, Repr

/-- One iteration of the done-handling loop in `main`:
`running_rewards[i] += real_rewards[i]`, then, if `dones_vec[i][0]`,
`reward_history[episode_count % reward_average_window_size] = running_rewards[i]`,
`running_rewards[i] = 0`, `returns[i] = 0`, `episode_count++`. -/
def done_loop_body (real_rewards : List ℚ) (dones : List Bool)
    (acc : DoneLoopAcc) (i : ℕ) : DoneLoopAcc :=
  let rr1 := acc.rr.set i (acc.rr.getD i 0 + real_rewards.getD i 0)
  if dones.getD i false then
    { ret := acc.ret.set i 0
      rr := rr1.set i 0
      hist := acc.hist.set (acc.ec % reward_average_window_size) (rr1.getD i 0)
      ec := acc.ec + 1 }
  else
    { acc with rr := rr1 }

/-- Result of one collection step: the updated orchestrator state, the
vector passed to `returns_rms->update`, and the normalized reward tensor
passed to `storage.insert`. -/
structure StepResult where
  state : LoopState
  rms_update_arg : List ℚ
  inserted_rewards : List ℚ
deriving DecidableEq, Repr

/-- One collection step of `main` (the reward-handling part of the MLP/CNN
step branch plus the done-handling loop):
`returns = returns * discount_factor + reward_tensor`;
`returns_rms->update(returns)`;
`reward_tensor = clamp(raw / sqrt(variance + 1e-8), -clip, clip)`;
then the done loop.  The square root of the post-update variance vector is
supplied through the abstract kernel `sqrtf` (the code calls
`torch::sqrt`); `variance` is the vector `returns_rms->get_variance()`
reports after the update call. -/
def collect_step (sqrtf : ℚ → ℚ) (st : LoopState) (real_rewards : List ℚ)
    (dones : List Bool) (variance : List ℚ) : StepResult :=
  let returns1 := (st.returns.zip real_rewards).map
    (fun p => p.1 * discount_factor + p.2)
  let normalized := (real_rewards.zip variance).map
    (fun p => clampQ (p.1 / sqrtf (p.2 + 1 / 100000000)) (- reward_clip_value) reward_clip_value)
  let acc := (List.range real_rewards.length).foldl
    (done_loop_body real_rewards dones)
    ⟨returns1, st.running_rewards, st.reward_history, st.episode_count⟩
  { state := ⟨acc.ret, acc.rr, acc.hist, acc.ec⟩
    rms_update_arg := returns1
    inserted_rewards := normalized }

/-- C++ float-to-int conversion: truncation toward zero (floor for
non-negative values, ceiling for negative ones). -/
def trunc_to_int (q : ℚ) : ℤ := if 0 ≤ q then ⌊q⌋ else ⌈q⌉

/-- `std::accumulate(reward_history.begin(), reward_history.end(), 0)` as
written in `main`: the initial value `0` is an `int`, so every partial sum
is converted back to `int`, truncating the float being accumulated. -/
def accumulate_int_init (v : List ℚ) : ℤ :=
  v.foldl (fun acc x => trunc_to_int ((acc : ℚ) + x)) 0

/-- The divisor of the reported average reward in `main`:
`episode_count < reward_average_window_size ? episode_count
: reward_average_window_size`. -/
def average_reward_den (episode_count : ℕ) : ℕ :=
  if episode_count < reward_average_window_size then episode_count
  else reward_average_window_size

/-- The reported `average_reward` in `main`: the int-initialized
`std::accumulate` sum of the window divided by `average_reward_den`. -/
def report_average_reward (history : List ℚ) (episode_count : ℕ) : ℚ :=
  (accumulate_int_init history : ℚ) / (average_reward_den episode_count : ℚ)

/-- Claim C7 (code bug): at a report step with no completed episode the
divisor of the reported average is 0 — `main` performs the division
unconditionally, with no zero-episode guard, skip, or NoData path. -/
theorem report_average_zero_divisor :
    average_reward_den 0 = 0 ∧ 0 < reward_average_window_size :=
  ⟨rfl, by decide⟩

/-- Claim C8 (code bug): after 11 completed episodes each with cumulative
reward `1/2` (window full of `1/2`), the code's reported average is 0 —
the `std::accumulate` call starts from the int `0`, truncating every
partial sum — while the mean of the 10 most recent episode totals is
`1/2`. -/
theorem report_average_truncation_bug :
    report_average_reward (List.replicate 10 (1 / 2)) 11 = 0
    ∧ (List.replicate 10 ((1 : ℚ) / 2)).sum / (10 : ℚ) = 1 / 2
    ∧ ((0 : ℚ) ≠ 1 / 2) := by
  refine ⟨?_, by norm_num, by norm_num⟩
  have h : accumulate_int_init (List.replicate 10 (1 / 2)) = 0 := by
    simp only [accumulate_int_init, List.replicate, List.foldl]
    norm_num [trunc_to_int]
  rw [report_average_reward, h]
  norm_num

theorem list_getD_set_ne (l : List ℚ) (j i : ℕ) (x : ℚ) (h : j ≠ i) :
    (l.set j x).getD i 0 = l.getD i 0 := by
  simp [List.getD_eq_getElem?_getD, List.getElem?_set_ne h]

theorem list_getD_set_self (l : List ℚ) (i : ℕ) (x : ℚ) (h : i < l.length) :
    (l.set i x).getD i 0 = x := by
  simp [List.getD_eq_getElem?_getD, List.getElem?_set_eq_of_lt x h]

theorem getD_map_zip_mul_add (c : ℚ) (l1 l2 : List ℚ) (i : ℕ)
    (h1 : i < l1.length) (h2 : i < l2.length) :
    ((l1.zip l2).map (fun p => p.1 * c + p.2)).getD i 0
      = l1.getD i 0 * c + l2.getD i 0 := by
  induction l1 generalizing l2 i with
  | nil => simp at h1
  | cons a t ih =>
    cases l2 with
    | nil => simp at h2
    | cons b t2 =>
      cases i with
      | zero => simp
      | succ n =>
        simp only [List.zip_cons_cons, List.map_cons, List.getD_cons_succ]
        exact ih t2 n (by simpa using h1) (by simpa using h2)

theorem done_loop_body_ret_length (real : List ℚ) (dones : List Bool)
    (acc : DoneLoopAcc) (j : ℕ) :
    (done_loop_body real dones acc j).ret.length = acc.ret.length := by
  simp only [done_loop_body]
  by_cases h : dones.getD j false = true
  · simp only [if_pos h, List.length_set]
  · simp only [if_neg h]

theorem done_loop_fold_ret_length (real : List ℚ) (dones : List Bool)
    (l : List ℕ) (acc : DoneLoopAcc) :
    (l.foldl (done_loop_body real dones) acc).ret.length = acc.ret.length := by
  induction l generalizing acc with
  | nil => rfl
  | cons j rest ih =>
    rw [List.foldl_cons, ih, done_loop_body_ret_length]

theorem done_loop_body_ret_getD_ne (real : List ℚ) (dones : List Bool)
    (acc : DoneLoopAcc) (j i : ℕ) (h : j ≠ i) :
    (done_loop_body real dones acc j).ret.getD i 0 = acc.ret.getD i 0 := by
  simp only [done_loop_body]
  by_cases hb : dones.getD j false = true
  · simp only [if_pos hb]
    exact list_getD_set_ne _ _ _ _ h
  · simp only [if_neg hb]

theorem done_loop_body_ret_getD_self (real : List ℚ) (dones : List Bool)
    (acc : DoneLoopAcc) (i : ℕ) (hlen : i < acc.ret.length) :
    (done_loop_body real dones acc i).ret.getD i 0
      = (if dones.getD i false then 0 else acc.ret.getD i 0) := by
  simp only [done_loop_body]
  by_cases hb : dones.getD i false = true
  · simp only [if_pos hb]
    exact list_getD_set_self _ _ _ hlen
  · simp only [if_neg hb]

theorem done_loop_fold_ret_getD_below (real : List ℚ) (dones : List Bool)
    (acc : DoneLoopAcc) (i : ℕ) :
    ∀ m, m ≤ i →
      ((List.range m).foldl (done_loop_body real dones) acc).ret.getD i 0
        = acc.ret.getD i 0 := by
  intro m
  induction m with
  | zero => intro _; rfl
  | succ m ih =>
    intro hm
    rw [List.range_succ, List.foldl_append, List.foldl_cons, List.foldl_nil,
      done_loop_body_ret_getD_ne _ _ _ _ _ (by omega), ih (by omega)]

theorem done_loop_fold_ret_getD_above (real : List ℚ) (dones : List Bool)
    (acc : DoneLoopAcc) (i : ℕ) :
    ∀ k, ((List.range (i + 1 + k)).foldl (done_loop_body real dones) acc).ret.getD i 0
        = ((List.range (i + 1)).foldl (done_loop_body real dones) acc).ret.getD i 0 := by
  intro k
  induction k with
  | zero => rfl
  | succ k ih =>
    have h : i + 1 + (k + 1) = (i + 1 + k) + 1 := by omega
    rw [h, List.range_succ, List.foldl_append, List.foldl_cons, List.foldl_nil,
      done_loop_body_ret_getD_ne _ _ _ _ _ (by omega), ih]

/-- The discounted running-return accumulator after the done-handling loop:
entry `i` was reset to 0 exactly when environment `i` finished this step,
and is untouched otherwise. -/
theorem done_loop_fold_ret_getD (real : List ℚ) (dones : List Bool)
    (acc : DoneLoopAcc) (n i : ℕ) (hi : i < n) (hlen : i < acc.ret.length) :
    ((List.range n).foldl (done_loop_body real dones) acc).ret.getD i 0
      = (if dones.getD i false then 0 else acc.ret.getD i 0) := by
  obtain ⟨k, rfl⟩ : ∃ k, n = i + 1 + k := ⟨n - (i + 1), by omega⟩
  rw [done_loop_fold_ret_getD_above]
  rw [List.range_succ, List.foldl_append, List.foldl_cons, List.foldl_nil]
  have hmid : ((List.range i).foldl (done_loop_body real dones) acc).ret.getD i 0
      = acc.ret.getD i 0 := done_loop_fold_ret_getD_below real dones acc i i (le_refl i)
  have hmidlen : i < ((List.range i).foldl (done_loop_body real dones) acc).ret.length := by
    rw [done_loop_fold_ret_length]; exact hlen
  rw [done_loop_body_ret_getD_self _ _ _ _ hmidlen, hmid]

/-- Claim C5: at every collection step, for every environment `i`, the
orchestrator updates the discounted running return by
`R_i * discount_factor + rawReward_i`, passes the full updated `R` vector
to `returns_rms->update`, hands the buffer insert the normalized reward
`clamp(raw / sqrt(variance + 1e-8), -clip, clip)` (square root through the
abstract kernel `sqrtf`), and resets `R_i` to 0 exactly when environment
`i`'s done flag is set this step. -/
theorem collect_step_reward_normalization (sqrtf : ℚ → ℚ) (st : LoopState)
    (real : List ℚ) (dones : List Bool) (variance : List ℚ) (i : ℕ)
    (hR : st.returns.length = real.length) (hi : i < real.length) :
    (collect_step sqrtf st real dones variance).rms_update_arg
        = (st.returns.zip real).map (fun p => p.1 * discount_factor + p.2)
    ∧ (collect_step sqrtf st real dones variance).inserted_rewards
        = (real.zip variance).map
            (fun p => clampQ (p.1 / sqrtf (p.2 + 1 / 100000000))
              (- reward_clip_value) reward_clip_value)
    ∧ (collect_step sqrtf st real dones variance).state.returns.getD i 0
        = (if dones.getD i false then 0
           else st.returns.getD i 0 * discount_factor + real.getD i 0) := by
  refine ⟨rfl, rfl, ?_⟩
  have hzlen : i < ((st.returns.zip real).map
      (fun p => p.1 * discount_factor + p.2)).length := by
    simp [List.length_zip, hR]
    omega
  show ((List.range real.length).foldl (done_loop_body real dones)
      ⟨(st.returns.zip real).map (fun p => p.1 * discount_factor + p.2),
        st.running_rewards, st.reward_history, st.episode_count⟩).ret.getD i 0 = _
  rw [done_loop_fold_ret_getD _ _ _ _ _ hi hzlen]
  rw [getD_map_zip_mul_add _ _ _ _ (by omega) hi]

/-- Witness for claim C5: one environment with running return 2, raw reward
4, done flag set, reported variance 1, and the identity in place of the
square-root kernel. -/
theorem collect_step_reward_normalization_witness :
    (([2] : List ℚ).length = ([4] : List ℚ).length ∧ 0 < ([4] : List ℚ).length)
    ∧ ((collect_step (fun x => x) ⟨[2], [0], List.replicate 10 0, 0⟩ [4] [true] [1]).rms_update_arg
        = ((([2] : List ℚ).zip ([4] : List ℚ)).map (fun p => p.1 * discount_factor + p.2))
    ∧ (collect_step (fun x => x) ⟨[2], [0], List.replicate 10 0, 0⟩ [4] [true] [1]).inserted_rewards
        = ((([4] : List ℚ).zip ([1] : List ℚ)).map
            (fun p => clampQ (p.1 / (fun x => x) (p.2 + 1 / 100000000))
              (- reward_clip_value) reward_clip_value))
    ∧ (collect_step (fun x => x) ⟨[2], [0], List.replicate 10 0, 0⟩ [4] [true] [1]).state.returns.getD 0 0
        = (if ([true] : List Bool).getD 0 false then 0
           else ([2] : List ℚ).getD 0 0 * discount_factor + ([4] : List ℚ).getD 0 0)) :=
  ⟨⟨rfl, by decide⟩,
    collect_step_reward_normalization (fun x => x) ⟨[2], [0], List.replicate 10 0, 0⟩
      [4] [true] [1] 0 rfl (by decide)⟩
